import Mathlib

/-!
Verification development for the Lunex engine bootstrap scripts
(`scripts/Setup.py`, `scripts/CheckPython.py`, `scripts/Vulkan.py`,
`scripts/KTX.py`).

The scripts are sequential, side-effecting glue code.  We embed them as
pure Lean functions over an explicit `World` record holding every external
observation the scripts make (filesystem probes, subprocess exit codes,
environment variables, operator answers).  Each run produces a trace of
externally visible actions (`Act`) plus a process `Outcome`.  Exit codes
returned by `subprocess.call` are modelled as `Int` (they can be negative
on POSIX signals); Python conditions `result != 0` become `r ≠ 0`.

`Utils.py` (providing `DownloadFile` and `YesOrNo`) is not part of the
provided sources; those two calls are modelled from the spec as a single
blocking download attempt (success recorded as a boolean input, failure
raising an exception) and a blocking yes/no prompt answered by a boolean
input.
-/

namespace LunexSetup

/-! ## String helpers (Python `in`, `str.replace`) -/

/-- Boolean list-prefix test, mirroring the character-by-character check
Python performs when scanning for a substring. -/
def prefB : List Char → List Char → Bool
  | [], _ => true
  | _ :: _, [] => false
  | a :: as, b :: bs => a == b && prefB as bs

/-- Python `needle in hay` on strings: `containsSub needle hay` is true iff
`needle` occurs as a contiguous substring of `hay`. -/
def containsSub (needle : List Char) : List Char → Bool
  | [] => prefB needle []
  | c :: rest => prefB needle (c :: rest) || containsSub needle rest

/-- Python `s.replace('\\', '/')` on the character list. -/
def normChars : List Char → List Char
  | [] => []
  | c :: r => (if c = '\\' then '/' else c) :: normChars r

/-- Python `s.replace('\\', '/')` on strings (KTX.py `SaveKTXPath`). -/
def normSlash (s : String) : String := ⟨normChars s.data⟩

/-- Python `package.replace('-', '_')` (CheckPython.py `ValidatePackage`). -/
def pyModName (p : String) : String :=
  ⟨p.data.map (fun c => if c = '-' then '_' else c)⟩

/-! ## Observable actions and process outcomes -/

/-- Externally visible actions of one run, in program order.
`gitCloneC` carries the full `git` argument vector so the clone's
`--depth 1 -b branch` shape is recorded. -/
inductive Act where
  | pipInstallA (pkg : String)
  | gitBulkInit
  | gitResetHard
  | gitCleanFd
  | repoChecked (path : String)
  | rmTree (path : String)
  | gitCloneC (argv : List String)
  | reportMissing (name : String)
  | waitEnter
  | writeFileA (path content : String)
  | promptYN (topic : String)
  | downloadA (url dest : String)
  | startFileA (path : String)
  | copyFileA (src dst : String)
  | dumpbinRun
  | ktxWriteDef
  | libToolRun
  | premakeRun (arg : String)
deriving DecidableEq, Repr

/-- How the process ends: an explicit `sys.exit(code)`, an uncaught
exception (Python exits non-zero, modelled as exit code 1), or falling off
the end of the script (exit code 0). -/
inductive Outcome where
  | exited (code : Nat)
  | raised
  | finished
deriving DecidableEq, Repr

/-- Process exit code of an `Outcome`. -/
def exitCode : Outcome → Nat
  | .exited c => c
  | .raised => 1
  | .finished => 0

/-- State of a repository's local directory as observed by
`os.path.exists(path)` / `os.listdir(path)` in the clone loop. -/
inductive DirState where
  | missing
  | empty
  | nonempty
deriving DecidableEq, Repr

/-- Filesystem probe results for `KTX.GetKTXSDKPath`: existence of the
local vendor directory, of its `include/ktx.h` header, of the directory
named by the `KTX_SDK` environment variable, and of that root's
`include/ktx.h`. -/
structure KtxProbe where
  localDir : Bool
  localHdr : Bool
  envDir : Bool
  envHdr : Bool
deriving DecidableEq, Repr

/-- Every external observation one run of `Setup.py` can make. -/
structure World where
  /-- `__import__(module)` succeeds, keyed by the module name. -/
  importable : String → Bool
  /-- `pip install pkg` exits zero, keyed by the package name. -/
  pipOk : String → Bool
  /-- Exit code of the first `git submodule update --init --recursive`. -/
  bulkInit1 : Int
  /-- Exit code of the retried bulk init (read only after a reset). -/
  bulkInit2 : Int
  /-- Directory state seen by the per-repository clone loop. -/
  dirState : String → DirState
  /-- `os.path.exists` for the integrity probes, the Assimp config and the
  premake executables, observed after the clone phase. -/
  probe : String → Bool
  /-- `os.environ.get('VULKAN_SDK')`. -/
  vkEnv : Option String
  /-- Operator's answer to the Vulkan install prompt. -/
  vkAnswer : Bool
  /-- The Vulkan installer download succeeds (failure raises). -/
  vkDlOk : Bool
  /-- `os.environ.get('KTX_SDK')`. -/
  ktxEnv : Option String
  /-- `os.path.abspath(KTX_SDK_LOCAL_PATH)` on this host. -/
  ktxLocalAbs : String
  /-- KTX locate probes before any install. -/
  ktxPre : KtxProbe
  /-- KTX locate probes re-read after the install steps. -/
  ktxPost : KtxProbe
  /-- Operator's answer to the KTX install prompt. -/
  ktxAnswer : Bool
  /-- KTX source-archive download succeeds (failure is caught). -/
  ktxSrcDlOk : Bool
  /-- KTX header extraction succeeds (failure is caught). -/
  ktxExtractOk : Bool
  /-- KTX installer download succeeds (failure is caught). -/
  ktxInstDlOk : Bool
  /-- `C:/Program Files/KTX-Software/bin/ktx.dll` exists after install. -/
  ktxDllFound : Bool
  /-- `vendor/ktx/bin/ktx.dll` exists when `CreateLibFromDLL` runs. -/
  ktxBinDll : Bool
  /-- Visual Studio tools (`dumpbin.exe`) were found. -/
  ktxVsFound : Bool
  /-- `dumpbin /EXPORTS` produced a non-empty export list. -/
  ktxExportsOk : Bool
  /-- `lib.exe` produced `ktx.lib`. -/
  ktxLibOk : Bool
  /-- `os.name == 'nt'`. -/
  isWindows : Bool
  /-- Exit code of `premake5.exe vs2022` (Windows branch). -/
  premakeExitW : Int
  /-- Exit code of `premake5 gmake2` (non-Windows branch). -/
  premakeExitNix : Int

/-! ## CheckPython.py -/

/-- One `ValidatePackage(package)` call: try `__import__`, on
`ImportError` run `pip install`; `subprocess.check_call` raises
`CalledProcessError` when pip exits non-zero, which no caller catches. -/
def validatePackage (w : World) (p : String) : List Act × Option Outcome :=
  if w.importable (pyModName p) then ([], none)
  else if w.pipOk p then ([.pipInstallA p], none)
  else ([.pipInstallA p], some .raised)

/-- Sequential `ValidatePackage` calls with exception propagation: a
raised install error aborts the remaining calls. -/
def validateList (w : World) : List String → List Act × Option Outcome
  | [] => ([], none)
  | p :: rest =>
    match validatePackage w p with
    | (a, some o) => (a, some o)
    | (a, none) =>
      let br := validateList w rest
      (a ++ br.1, br.2)

/-- The fixed package list of `ValidatePackages()`. -/
def packagesList : List String := ["requests", "fake-useragent"]

/-- `CheckPython.ValidatePackages()` as invoked by `Setup.py`. -/
def validatePackagesM (w : World) : List Act × Option Outcome :=
  validateList w packagesList

/-! ## Setup.py step [2/8]: bulk submodule init with one retry -/

/-- Bulk `git submodule update --init --recursive`; on non-zero exit,
`git submodule foreach` reset and clean, then one retry whose result is
not examined. -/
def bulkActs (w : World) : List Act :=
  if w.bulkInit1 ≠ 0 then [.gitBulkInit, .gitResetHard, .gitCleanFd, .gitBulkInit]
  else [.gitBulkInit]

/-! ## Setup.py step [3/8]: per-repository clone loop -/

/-- One entry of the fixed `submodules` list. -/
structure RepoSpec where
  path : String
  url : String
  branch : String
deriving DecidableEq, Repr

/-- The fixed `submodules` list of `Setup.py`. -/
def submodules : List RepoSpec :=
  [⟨"vendor/GLFW", "https://github.com/glfw/glfw.git", "master"⟩,
   ⟨"vendor/ImGuiLib", "https://github.com/ocornut/imgui.git", "docking"⟩,
   ⟨"vendor/glm", "https://github.com/g-truc/glm.git", "master"⟩,
   ⟨"vendor/ImGuizmo", "https://github.com/CedricGuillemet/ImGuizmo.git", "master"⟩,
   ⟨"vendor/imnodes", "https://github.com/Nelarius/imnodes.git", "master"⟩,
   ⟨"vendor/yaml-cpp", "https://github.com/jbeder/yaml-cpp.git", "master"⟩,
   ⟨"vendor/Box2D", "https://github.com/erincatto/box2d.git", "main"⟩,
   ⟨"vendor/assimp", "https://github.com/assimp/assimp.git", "master"⟩,
   ⟨"vendor/Bullet3", "https://github.com/bulletphysics/bullet3.git", "master"⟩]

/-- The exact `git clone` argument vector used for a spec. -/
def cloneArgv (s : RepoSpec) : List String :=
  ["git", "clone", "--depth", "1", "-b", s.branch, s.url, s.path]

/-- One iteration of the clone loop.  A non-empty directory is left
untouched; an empty directory is removed (`shutil.rmtree`, exceptions
caught and ignored) and re-cloned; a missing path is cloned.  Every
iteration prints a status line for its path (`repoChecked`). -/
def specActs (w : World) (s : RepoSpec) : List Act :=
  .repoChecked s.path ::
    match w.dirState s.path with
    | .nonempty => []
    | .empty => [.rmTree s.path, .gitCloneC (cloneArgv s)]
    | .missing => [.gitCloneC (cloneArgv s)]

/-- The clone loop over a spec list. -/
def cloneLoopOver (w : World) (l : List RepoSpec) : List Act :=
  (l.map (specActs w)).flatten

/-- The clone loop of `Setup.py` (runs unconditionally, whatever the bulk
init returned). -/
def cloneLoopActs (w : World) : List Act := cloneLoopOver w submodules

/-! ## Setup.py step [4/8]: integrity verification -/

/-- The fixed `required_files` table: probe path and display name. -/
def requiredFiles : List (String × String) :=
  [("vendor/GLFW/include/GLFW/glfw3.h", "GLFW"),
   ("vendor/ImGuiLib/imgui.h", "ImGui"),
   ("vendor/glm/glm/glm.hpp", "GLM"),
   ("vendor/ImGuizmo/ImGuizmo.h", "ImGuizmo"),
   ("vendor/imnodes/imnodes.h", "imnodes"),
   ("vendor/yaml-cpp/include/yaml-cpp/yaml.h", "yaml-cpp"),
   ("vendor/Box2D/include/box2d/box2d.h", "Box2D"),
   ("vendor/assimp/include/assimp/Importer.hpp", "Assimp"),
   ("vendor/Bullet3/src/btBulletDynamicsCommon.h", "Bullet3")]

/-- The `missing_submodules` list built by the verification loop. -/
def missingSubs (w : World) : List String :=
  (requiredFiles.filter (fun pr => !(w.probe pr.1))).map
    (fun pr => pr.2 ++ " (" ++ pr.1 ++ ")")

/-- Actions of the verification step: one report per missing probe, and,
when anything is missing, a blocking "press Enter to continue anyway"
prompt.  The step neither raises nor exits. -/
def integrityActs (w : World) : List Act :=
  ((requiredFiles.filter (fun pr => !(w.probe pr.1))).map
      (fun pr => Act.reportMissing pr.2)) ++
    (if missingSubs w = [] then [] else [.waitEnter])

/-! ## Setup.py step [5/8]: Assimp config -/

def assimpConfigPath : String := "vendor/assimp/include/assimp/config.h"

/-- The literal `config.h` contents written by `Setup.py`. -/
def assimpContent : String :=
  "#ifndef ASSIMP_CONFIG_H_INC\n#define ASSIMP_CONFIG_H_INC\n#define ASSIMP_BUILD_NO_C4D_IMPORTER\n#define ASSIMP_BUILD_NO_DRACO\n#ifdef _MSC_VER\n#define AI_FORCE_INLINE __forceinline\n#else\n#define AI_FORCE_INLINE inline\n#endif\n#endif\n"

/-- Write `config.h` when it does not already exist. -/
def assimpActs (w : World) : List Act :=
  if w.probe assimpConfigPath then []
  else [.writeFileA assimpConfigPath assimpContent]

/-! ## Vulkan.py -/

def LUNEX_VULKAN_VERSION : String := "1.3.290"

def VULKAN_SDK_INSTALLER_URL : String :=
  "https://sdk.lunarg.com/sdk/download/1.3.290.0/windows/VulkanSDK-1.3.290.0-Installer.exe"

def VULKAN_SDK_EXE_PATH : String := "Lunex/vendor/VulkanSDK/VulkanSDK.exe"

/-- Result of `CheckVulkanSDK()`: accepted (`return True` with no
prompt), declined (`return False` after the prompt), the install path
(which ends in `sys.exit(0)` — the `return True` after
`InstallVulkanSDK()` is unreachable), or an uncaught download error. -/
inductive VkRes where
  | accepted
  | declined
  | exitedInstall
  | raisedDl
deriving DecidableEq, Repr

/-- `InstallVulkanSDK()`: download the installer (`Utils.DownloadFile`,
modelled from the spec as one blocking attempt whose failure raises and
is not caught here), launch it, block on Enter, then `sys.exit(0)`. -/
def installVulkanSDK (dlOk : Bool) : List Act × VkRes :=
  if dlOk then
    ([.downloadA VULKAN_SDK_INSTALLER_URL VULKAN_SDK_EXE_PATH,
      .startFileA VULKAN_SDK_EXE_PATH, .waitEnter], .exitedInstall)
  else ([.downloadA VULKAN_SDK_INSTALLER_URL VULKAN_SDK_EXE_PATH], .raisedDl)

/-- `InstallVulkanPrompt()`: yes/no prompt (`Utils.YesOrNo`, modelled
from the spec as a blocking prompt answered by `answer`); yes runs the
installer, no returns `False`. -/
def installVulkanPrompt (answer dlOk : Bool) : List Act × VkRes :=
  if answer then
    let r := installVulkanSDK dlOk
    (.promptYN "vulkan-install" :: r.1, r.2)
  else ([.promptYN "vulkan-install"], .declined)

/-- `CheckVulkanSDK()`: reads only the `VULKAN_SDK` environment variable;
unset → prompt; set but not containing the required version substring →
prompt; otherwise accept with no prompt.  No filesystem path is examined
on this check. -/
def checkVulkanSDK (env : Option String) (answer dlOk : Bool) : List Act × VkRes :=
  match env with
  | none => installVulkanPrompt answer dlOk
  | some s =>
    if containsSub LUNEX_VULKAN_VERSION.data s.data then ([], .accepted)
    else installVulkanPrompt answer dlOk

/-- How a `VkRes` affects the surrounding run: the install path exits the
process with code 0, a download error kills it, accept/decline continue. -/
def vkOut : VkRes → Option Outcome
  | .exitedInstall => some (.exited 0)
  | .raisedDl => some .raised
  | .accepted => none
  | .declined => none

/-! ## KTX.py -/

def LUNEX_KTX_VERSION : String := "4.3.2"

def KTX_SDK_LOCAL_PATH : String := "vendor/ktx"

def KTX_SOURCE_URL : String :=
  "https://github.com/KhronosGroup/KTX-Software/archive/refs/tags/v" ++
    LUNEX_KTX_VERSION ++ ".zip"

def KTX_INSTALLER_URL : String :=
  "https://github.com/KhronosGroup/KTX-Software/releases/download/v" ++
    LUNEX_KTX_VERSION ++ "/KTX-Software-" ++ LUNEX_KTX_VERSION ++
    "-Windows-x64.exe"

def ktxZipPath : String := KTX_SDK_LOCAL_PATH ++ "/ktx-source.zip"

def ktxInstPath : String := KTX_SDK_LOCAL_PATH ++ "/KTX-Installer.exe"

/-- `GetKTXSDKPath()`: prefer the local vendor directory (existence of
the directory and of `include/ktx.h`), else the `KTX_SDK` environment
variable (truthy, existing, with `include/ktx.h`), else `None`. -/
def getKTXSDKPath (env : Option String) (localAbs : String) (pr : KtxProbe) :
    Option String :=
  if pr.localDir && pr.localHdr then some localAbs
  else
    match env with
    | some k => if (k != "") && pr.envDir && pr.envHdr then some k else none
    | none => none

/-- The `ktx_config.lua` contents written by `SaveKTXPath(ktx_path)`:
a comment line and one assignment whose path has every backslash
replaced by a forward slash. -/
def saveKTXContent (p : String) : String :=
  "-- Auto-generated by KTX.py\n" ++ "KTX_SDK_PATH = \"" ++ normSlash p ++ "\"\n"

/-- The act performed by `SaveKTXPath`. -/
def saveKTXAct (p : String) : Act := .writeFileA "ktx_config.lua" (saveKTXContent p)

/-- `DownloadAndExtractSource()`: one download attempt (failure caught,
returns `False`), then extraction (failure caught, returns `False`). -/
def downloadAndExtractSource (srcDlOk extractOk : Bool) : List Act × Bool :=
  ([.downloadA KTX_SOURCE_URL ktxZipPath], srcDlOk && extractOk)

/-- `DownloadBinaries()`: download the installer (failure caught, returns
`False`), launch it, block on Enter, then require
`C:/Program Files/KTX-Software/bin/ktx.dll` and copy it into the vendor
tree. -/
def downloadBinaries (instDlOk dllFound : Bool) : List Act × Bool :=
  if instDlOk then
    let a := [Act.downloadA KTX_INSTALLER_URL ktxInstPath,
              Act.startFileA ktxInstPath, Act.waitEnter]
    if dllFound then
      (a ++ [.copyFileA "C:/Program Files/KTX-Software/bin/ktx.dll"
              (KTX_SDK_LOCAL_PATH ++ "/bin/ktx.dll")], true)
    else (a, false)
  else ([.downloadA KTX_INSTALLER_URL ktxInstPath], false)

/-- `CreateLibFromDLL()`: best-effort synthesis of `ktx.lib` from the
installed DLL via `dumpbin`/`lib.exe`; every failure is soft. -/
def createLibFromDLL (binDll vsFound exportsOk libOk : Bool) : List Act × Bool :=
  if !binDll then ([], false)
  else if !vsFound then ([], false)
  else if !exportsOk then ([.dumpbinRun], false)
  else if libOk then ([.dumpbinRun, .ktxWriteDef, .libToolRun], true)
  else ([.dumpbinRun, .ktxWriteDef, .libToolRun], false)

/-- `InstallKTXSDK()`: headers, binaries, best-effort lib synthesis (its
result is discarded), then re-run `GetKTXSDKPath()` on the post-install
filesystem; on success record the path for premake. -/
def installKTXSDK (w : World) : List Act × Bool :=
  let s1 := downloadAndExtractSource w.ktxSrcDlOk w.ktxExtractOk
  if !s1.2 then (s1.1, false)
  else
    let s2 := downloadBinaries w.ktxInstDlOk w.ktxDllFound
    if !s2.2 then (s1.1 ++ s2.1, false)
    else
      let s3 := createLibFromDLL w.ktxBinDll w.ktxVsFound w.ktxExportsOk w.ktxLibOk
      match getKTXSDKPath w.ktxEnv w.ktxLocalAbs w.ktxPost with
      | some p => (s1.1 ++ s2.1 ++ s3.1 ++ [saveKTXAct p], true)
      | none => (s1.1 ++ s2.1 ++ s3.1, false)

/-- `CheckKTXSDK()`: locate; found → record the path for premake and
return `True`; not found → prompt, and either install or return
`False`. -/
def checkKTXSDK (w : World) : List Act × Bool :=
  match getKTXSDKPath w.ktxEnv w.ktxLocalAbs w.ktxPre with
  | some p => ([saveKTXAct p], true)
  | none =>
    if w.ktxAnswer then
      let r := installKTXSDK w
      (.promptYN "ktx-install" :: r.1, r.2)
    else ([.promptYN "ktx-install"], false)

/-! ## Setup.py step [8/8]: premake -/

def premakeWinPath : String := "vendor/bin/premake/premake5.exe"

def premakeNixPath : String := "vendor/bin/premake/premake5"

/-- The premake step.  Windows: missing executable or non-zero exit →
blocking prompt then `sys.exit(1)`; success falls through to the summary.
Non-Windows: `subprocess.call` result is ignored (a missing executable
raises `FileNotFoundError`, uncaught). -/
def premakeStep (w : World) : List Act × Outcome :=
  if w.isWindows then
    if !(w.probe premakeWinPath) then ([.waitEnter], .exited 1)
    else if w.premakeExitW ≠ 0 then ([.premakeRun "vs2022", .waitEnter], .exited 1)
    else ([.premakeRun "vs2022"], .finished)
  else
    if !(w.probe premakeNixPath) then ([], .raised)
    else ([.premakeRun "gmake2"], .finished)

/-! ## The whole run -/

/-- The Vulkan check as invoked by `Setup.py` step [6/8]. -/
def vkCall (w : World) : List Act × VkRes :=
  checkVulkanSDK w.vkEnv w.vkAnswer w.vkDlOk

/-- Everything after the Vulkan step: empty when that step ends the
process, otherwise the KTX check followed by the premake step. -/
def tailActs (w : World) : List Act :=
  match vkOut (vkCall w).2 with
  | some _ => []
  | none => (checkKTXSDK w).1 ++ (premakeStep w).1

/-- The outcome of the run once the package step has passed: either the
Vulkan step ends the process, or the premake step decides the exit. -/
def outAfterVk (w : World) : Outcome :=
  match vkOut (vkCall w).2 with
  | some o => o
  | none => (premakeStep w).2

/-- One run of `Setup.py`, top to bottom: package verification (whose
uncaught failure aborts everything), bulk submodule init with one retry,
the per-repository clone loop, integrity verification, Assimp config,
the Vulkan check (which can end the process), the KTX check, and the
premake step.  `CheckVulkanSDKDebugLibs` and `CheckKTXSDKDebugLibs` only
probe the filesystem and print; their boolean results are discarded by
`Setup.py`, so they contribute nothing here. -/
def runSetup (w : World) : List Act × Outcome :=
  match validatePackagesM w with
  | (a1, some o) => (a1, o)
  | (a1, none) =>
    (a1 ++ bulkActs w ++ cloneLoopActs w ++ integrityActs w ++ assimpActs w ++
      (vkCall w).1 ++ tailActs w, outAfterVk w)

/-! ## Derived trace views and concrete worlds -/

/-- Occurrence count of one action in a trace. -/
def cntA (x : Act) (l : List Act) : Nat := l.countP (fun a => decide (a = x))

/-- Recognize a file write. -/
def isWriteAct : Act → Bool
  | .writeFileA _ _ => true
  | _ => false

/-- A benign world: every package importable, the bulk init succeeds,
every repository directory is populated, every probe passes, a correct
Vulkan SDK is in the environment, the local KTX vendor directory
validates, and premake (Windows host) succeeds. -/
def baseW : World where
  importable := fun _ => true
  pipOk := fun _ => true
  bulkInit1 := 0
  bulkInit2 := 0
  dirState := fun _ => .nonempty
  probe := fun _ => true
  vkEnv := some "C:/VulkanSDK/1.3.290.0"
  vkAnswer := false
  vkDlOk := true
  ktxEnv := none
  ktxLocalAbs := "C:\\dev\\Lunex\\vendor\\ktx"
  ktxPre := ⟨true, true, false, false⟩
  ktxPost := ⟨true, true, false, false⟩
  ktxAnswer := false
  ktxSrcDlOk := true
  ktxExtractOk := true
  ktxInstDlOk := true
  ktxDllFound := true
  ktxBinDll := true
  ktxVsFound := true
  ktxExportsOk := true
  ktxLibOk := true
  isWindows := true
  premakeExitW := 0
  premakeExitNix := 0

/-- Non-Windows host whose premake invocation exits 1. -/
def wC1 : World := { baseW with isWindows := false, premakeExitNix := 1 }

/-- No package importable and every pip install failing. -/
def wC2 : World := { baseW with importable := fun _ => false, pipOk := fun _ => false }

/-- `VULKAN_SDK` unset and the operator accepting the install prompt. -/
def wC7 : World := { baseW with vkEnv := none, vkAnswer := true }

/-- Both bulk submodule init attempts fail and every repository is
missing. -/
def wC3 : World :=
  { baseW with bulkInit1 := 1, bulkInit2 := 1, dirState := fun _ => DirState.missing }

/-- KTX not yet installed, operator accepts, install succeeds and the
post-install locate finds the local vendor tree. -/
def wC7b : World :=
  { baseW with ktxPre := ⟨false, false, false, false⟩, ktxAnswer := true }

/-- All directories populated but GLFW's required header missing. -/
def wC4 : World :=
  { baseW with probe := fun p => !(p == "vendor/GLFW/include/GLFW/glfw3.h") }

/-- GLFW's directory exists but is empty; every other directory is
populated. -/
def wC5 : World :=
  { baseW with
    dirState := fun p => if p == "vendor/GLFW" then DirState.empty else DirState.nonempty }

/-- The GLM header probe fails; everything else passes. -/
def wC6 : World :=
  { baseW with probe := fun p => !(p == "vendor/glm/glm/glm.hpp") }

/-! ## String lemmas -/

/-- `prefB` decides the list-prefix relation. -/
theorem prefB_iff (n : List Char) : ∀ h : List Char, prefB n h = true ↔ ∃ t, h = n ++ t := by
  induction n with
  | nil => intro h; simp [prefB]
  | cons a as ih =>
    intro h
    cases h with
    | nil => simp [prefB]
    | cons b bs =>
      simp only [prefB, Bool.and_eq_true, beq_iff_eq, ih]
      constructor
      · rintro ⟨rfl, t, rfl⟩
        exact ⟨t, rfl⟩
      · rintro ⟨t, ht⟩
        rw [List.cons_append] at ht
        injection ht with hb hbs
        exact ⟨hb.symm, t, hbs⟩

/-- `containsSub` decides Python substring containment. -/
theorem containsSub_iff (n : List Char) :
    ∀ h : List Char, containsSub n h = true ↔ ∃ pre post, h = pre ++ n ++ post := by
  intro h
  induction h with
  | nil =>
    show prefB n [] = true ↔ _
    rw [prefB_iff]
    constructor
    · rintro ⟨t, ht⟩
      exact ⟨[], t, by simpa using ht⟩
    · rintro ⟨pre, post, hp⟩
      have hp' := hp.symm
      rw [List.append_assoc] at hp'
      rcases List.append_eq_nil.mp hp' with ⟨h1, h2⟩
      rcases List.append_eq_nil.mp h2 with ⟨h3, h4⟩
      exact ⟨[], by simp [h3]⟩
  | cons c rest ih =>
    show (prefB n (c :: rest) || containsSub n rest) = true ↔ _
    rw [Bool.or_eq_true, prefB_iff, ih]
    constructor
    · rintro (⟨t, ht⟩ | ⟨pre, post, hp⟩)
      · exact ⟨[], t, by simpa using ht⟩
      · exact ⟨c :: pre, post, by simp [hp]⟩
    · rintro ⟨pre, post, hp⟩
      cases pre with
      | nil => exact Or.inl ⟨post, by simpa using hp⟩
      | cons x xs =>
        rw [List.cons_append, List.cons_append] at hp
        injection hp with h1 h2
        exact Or.inr ⟨xs, post, by simpa using h2⟩

/-- The path written into `ktx_config.lua` never contains a backslash. -/
theorem normChars_no_bs (l : List Char) : ∀ c ∈ normChars l, c ≠ '\\' := by
  induction l with
  | nil => simp [normChars]
  | cons a r ih =>
    intro c hc
    simp only [normChars, List.mem_cons] at hc
    rcases hc with rfl | h
    · by_cases hb : a = '\\'
      · simp [hb]
      · simp only [if_neg hb]
        exact hb
    · exact ih c h

/-! ## Vulkan check helper lemmas -/

/-- The prompt path of `CheckVulkanSDK` never produces the accepted
result. -/
theorem installVulkanPrompt_ne_accepted (a d : Bool) :
    (installVulkanPrompt a d).2 ≠ VkRes.accepted := by
  cases a <;> cases d <;> simp [installVulkanPrompt, installVulkanSDK]

/-- Shape of the Vulkan check's trace: only the install prompt, the
installer download, the installer launch, and the blocking wait. -/
theorem vk_acts_shape (env : Option String) (a d : Bool) :
    ∀ x ∈ (checkVulkanSDK env a d).1,
      x = Act.promptYN "vulkan-install" ∨
      x = Act.downloadA VULKAN_SDK_INSTALLER_URL VULKAN_SDK_EXE_PATH ∨
      x = Act.startFileA VULKAN_SDK_EXE_PATH ∨ x = Act.waitEnter := by
  intro x hx
  cases env with
  | none =>
    cases a <;> cases d <;>
      simp [checkVulkanSDK, installVulkanPrompt, installVulkanSDK] at hx <;> tauto
  | some s =>
    by_cases hc : containsSub LUNEX_VULKAN_VERSION.data s.data = true
    · simp [checkVulkanSDK, hc] at hx
    · have hc' : containsSub LUNEX_VULKAN_VERSION.data s.data = false := by
        simpa using hc
      cases a <;> cases d <;>
        simp [checkVulkanSDK, hc', installVulkanPrompt, installVulkanSDK] at hx <;> tauto

/-! ## Trace decomposition -/

/-- Once the package step passes, the run's trace is the concatenation of
the step traces. -/
theorem runSetup_trace (w : World) (h1 : (validatePackagesM w).2 = none) :
    (runSetup w).1 = (validatePackagesM w).1 ++ bulkActs w ++ cloneLoopActs w ++
      integrityActs w ++ assimpActs w ++ (vkCall w).1 ++ tailActs w := by
  rcases hval : validatePackagesM w with ⟨a1, r1⟩
  rw [hval] at h1
  simp only at h1
  subst h1
  unfold runSetup
  rw [hval]

/-- Once the package step passes, the run's outcome is `outAfterVk`. -/
theorem runSetup_out (w : World) (h1 : (validatePackagesM w).2 = none) :
    (runSetup w).2 = outAfterVk w := by
  rcases hval : validatePackagesM w with ⟨a1, r1⟩
  rw [hval] at h1
  simp only at h1
  subst h1
  unfold runSetup
  rw [hval]

/-- When the Vulkan step also continues, the premake step decides the
process exit. -/
theorem runSetup_out_premake (w : World) (h1 : (validatePackagesM w).2 = none)
    (h2 : vkOut (vkCall w).2 = none) :
    (runSetup w).2 = (premakeStep w).2 := by
  rw [runSetup_out w h1]
  unfold outAfterVk
  rw [h2]

/-- Membership in the run's trace, segment by segment. -/
theorem mem_trace_iff (w : World) (h1 : (validatePackagesM w).2 = none) (x : Act) :
    x ∈ (runSetup w).1 ↔
      x ∈ (validatePackagesM w).1 ∨ x ∈ bulkActs w ∨ x ∈ cloneLoopActs w ∨
      x ∈ integrityActs w ∨ x ∈ assimpActs w ∨ x ∈ (vkCall w).1 ∨
      x ∈ tailActs w := by
  rw [runSetup_trace w h1]
  simp [List.mem_append, or_assoc]

/-! ## Segment shapes -/

/-- Each `ValidatePackage` call emits at most its own pip install. -/
theorem validatePackage_acts (w : World) (p : String) :
    (validatePackage w p).1 = [] ∨ (validatePackage w p).1 = [Act.pipInstallA p] := by
  unfold validatePackage
  split_ifs <;> simp

/-- Every action of the package step is a pip install of a listed
package. -/
theorem validate_shape (w : World) :
    ∀ l : List String, ∀ x ∈ (validateList w l).1, ∃ p ∈ l, x = Act.pipInstallA p := by
  intro l
  induction l with
  | nil => simp [validateList]
  | cons p rest ih =>
    intro x hx
    have hvp : ∀ y ∈ (validatePackage w p).1, y = Act.pipInstallA p := by
      intro y hy
      rcases validatePackage_acts w p with h | h <;> rw [h] at hy <;> simp at hy
      exact hy
    unfold validateList at hx
    rcases h : validatePackage w p with ⟨a, r⟩
    rw [h] at hx
    cases r with
    | some o =>
      simp only at hx
      refine ⟨p, by simp, hvp x ?_⟩
      rw [h]
      exact hx
    | none =>
      simp only at hx
      rcases List.mem_append.mp hx with hxa | hxr
      · refine ⟨p, by simp, hvp x ?_⟩
        rw [h]
        exact hxa
      · obtain ⟨q, hq, hxq⟩ := ih x hxr
        exact ⟨q, by simp [hq], hxq⟩

/-- The bulk-init step emits only the three git commands. -/
theorem bulk_shape (w : World) :
    ∀ x ∈ bulkActs w,
      x = Act.gitBulkInit ∨ x = Act.gitResetHard ∨ x = Act.gitCleanFd := by
  intro x hx
  unfold bulkActs at hx
  split_ifs at hx <;> simp at hx <;> tauto

/-- One clone-loop iteration emits only its status line, its removal and
its clone. -/
theorem specActs_shape (w : World) (s : RepoSpec) :
    ∀ x ∈ specActs w s,
      x = Act.repoChecked s.path ∨ x = Act.rmTree s.path ∨
      x = Act.gitCloneC (cloneArgv s) := by
  intro x hx
  unfold specActs at hx
  cases hd : w.dirState s.path <;> rw [hd] at hx <;> simp at hx <;> tauto

/-- Every clone-loop action belongs to some listed spec's iteration. -/
theorem cloneLoopOver_shape (w : World) :
    ∀ l : List RepoSpec, ∀ x ∈ cloneLoopOver w l,
      ∃ s ∈ l, x ∈ specActs w s := by
  intro l x hx
  unfold cloneLoopOver at hx
  rcases List.mem_flatten.mp hx with ⟨piece, hpiece, hxp⟩
  rcases List.mem_map.mp hpiece with ⟨s, hs, rfl⟩
  exact ⟨s, hs, hxp⟩

/-- A removal in the clone loop comes from a spec whose directory was
empty. -/
theorem cloneLoop_rmTree (w : World) (l : List RepoSpec) (p : String)
    (h : Act.rmTree p ∈ cloneLoopOver w l) :
    ∃ s ∈ l, s.path = p ∧ w.dirState s.path = DirState.empty := by
  rcases cloneLoopOver_shape w l _ h with ⟨s, hs, hmem⟩
  refine ⟨s, hs, ?_⟩
  unfold specActs at hmem
  cases hd : w.dirState s.path <;> rw [hd] at hmem <;> simp at hmem
  · exact ⟨hmem.symm, rfl⟩

/-- A clone in the clone loop uses some listed spec's exact argument
vector, and only for a directory that was not non-empty. -/
theorem cloneLoop_clone (w : World) (l : List RepoSpec) (argv : List String)
    (h : Act.gitCloneC argv ∈ cloneLoopOver w l) :
    ∃ s ∈ l, argv = cloneArgv s ∧ w.dirState s.path ≠ DirState.nonempty := by
  rcases cloneLoopOver_shape w l _ h with ⟨s, hs, hmem⟩
  refine ⟨s, hs, ?_⟩
  unfold specActs at hmem
  cases hd : w.dirState s.path <;> rw [hd] at hmem <;> simp at hmem
  · exact ⟨hmem, by simp [hd]⟩
  · exact ⟨hmem, by simp [hd]⟩

/-- Actions of one listed spec's iteration appear in the clone loop. -/
theorem cloneLoop_mem (w : World) (l : List RepoSpec) (s : RepoSpec)
    (hs : s ∈ l) : ∀ x ∈ specActs w s, x ∈ cloneLoopOver w l := by
  intro x hx
  unfold cloneLoopOver
  exact List.mem_flatten.mpr ⟨specActs w s, List.mem_map.mpr ⟨s, hs, rfl⟩, hx⟩

/-- The integrity step emits only missing-item reports and the blocking
confirmation. -/
theorem integrity_shape (w : World) :
    ∀ x ∈ integrityActs w, (∃ n, x = Act.reportMissing n) ∨ x = Act.waitEnter := by
  intro x hx
  unfold integrityActs at hx
  rcases List.mem_append.mp hx with h | h
  · rcases List.mem_map.mp h with ⟨pr, _, rfl⟩
    exact Or.inl ⟨pr.2, rfl⟩
  · split_ifs at h <;> simp at h
    exact Or.inr h

/-- A missing probe is always reported by the integrity step. -/
theorem integrity_mem_report (w : World) (pr : String × String)
    (hpr : pr ∈ requiredFiles) (hp : w.probe pr.1 = false) :
    Act.reportMissing pr.2 ∈ integrityActs w := by
  unfold integrityActs
  apply List.mem_append_left
  apply List.mem_map.mpr
  refine ⟨pr, List.mem_filter.mpr ⟨hpr, by simp [hp]⟩, rfl⟩

/-- The Assimp step emits at most the config write. -/
theorem assimp_shape (w : World) :
    ∀ x ∈ assimpActs w, x = Act.writeFileA assimpConfigPath assimpContent := by
  intro x hx
  unfold assimpActs at hx
  split_ifs at hx <;> simp at hx
  exact hx

/-- Shape of `DownloadAndExtractSource`'s trace. -/
theorem dlx_shape (b1 b2 : Bool) :
    ∀ x ∈ (downloadAndExtractSource b1 b2).1,
      x = Act.downloadA KTX_SOURCE_URL ktxZipPath := by
  intro x hx
  simp [downloadAndExtractSource] at hx
  exact hx

/-- Shape of `DownloadBinaries`' trace. -/
theorem dlb_shape (b1 b2 : Bool) :
    ∀ x ∈ (downloadBinaries b1 b2).1,
      x = Act.downloadA KTX_INSTALLER_URL ktxInstPath ∨
      x = Act.startFileA ktxInstPath ∨ x = Act.waitEnter ∨
      x = Act.copyFileA "C:/Program Files/KTX-Software/bin/ktx.dll"
            (KTX_SDK_LOCAL_PATH ++ "/bin/ktx.dll") := by
  intro x hx
  unfold downloadBinaries at hx
  split_ifs at hx <;> simp at hx <;> tauto

/-- Shape of `CreateLibFromDLL`'s trace. -/
theorem clib_shape (b1 b2 b3 b4 : Bool) :
    ∀ x ∈ (createLibFromDLL b1 b2 b3 b4).1,
      x = Act.dumpbinRun ∨ x = Act.ktxWriteDef ∨ x = Act.libToolRun := by
  intro x hx
  unfold createLibFromDLL at hx
  split_ifs at hx <;> simp at hx <;> tauto

/-- Shape of the KTX check's trace. -/
theorem ktx_shape (w : World) :
    ∀ x ∈ (checkKTXSDK w).1,
      x = Act.promptYN "ktx-install" ∨ (∃ p, x = saveKTXAct p) ∨
      x = Act.downloadA KTX_SOURCE_URL ktxZipPath ∨
      x = Act.downloadA KTX_INSTALLER_URL ktxInstPath ∨
      x = Act.startFileA ktxInstPath ∨ x = Act.waitEnter ∨
      x = Act.copyFileA "C:/Program Files/KTX-Software/bin/ktx.dll"
            (KTX_SDK_LOCAL_PATH ++ "/bin/ktx.dll") ∨
      x = Act.dumpbinRun ∨ x = Act.ktxWriteDef ∨ x = Act.libToolRun := by
  intro x hx
  unfold checkKTXSDK at hx
  rcases hk : getKTXSDKPath w.ktxEnv w.ktxLocalAbs w.ktxPre with _ | p <;>
    rw [hk] at hx
  · split_ifs at hx
    · simp only [List.mem_cons] at hx
      rcases hx with rfl | hx
      · tauto
      · unfold installKTXSDK at hx
        dsimp only at hx
        split_ifs at hx
        · exact Or.inr (Or.inr (Or.inl (dlx_shape w.ktxSrcDlOk w.ktxExtractOk x hx)))
        · rcases List.mem_append.mp hx with h | h
          · exact Or.inr (Or.inr (Or.inl (dlx_shape w.ktxSrcDlOk w.ktxExtractOk x h)))
          · rcases dlb_shape w.ktxInstDlOk w.ktxDllFound x h with h' | h' | h' | h' <;> tauto
        · rcases hpost : getKTXSDKPath w.ktxEnv w.ktxLocalAbs w.ktxPost with _ | q <;>
            rw [hpost] at hx <;> simp only at hx
          · rcases List.mem_append.mp hx with h | h
            · rcases List.mem_append.mp h with h2 | h2
              · exact Or.inr (Or.inr (Or.inl (dlx_shape w.ktxSrcDlOk w.ktxExtractOk x h2)))
              · rcases dlb_shape w.ktxInstDlOk w.ktxDllFound x h2 with h' | h' | h' | h' <;> tauto
            · rcases clib_shape w.ktxBinDll w.ktxVsFound w.ktxExportsOk w.ktxLibOk x h with h' | h' | h' <;> tauto
          · rcases List.mem_append.mp hx with h | h
            · rcases List.mem_append.mp h with h2 | h2
              · rcases List.mem_append.mp h2 with h3 | h3
                · exact Or.inr (Or.inr (Or.inl (dlx_shape w.ktxSrcDlOk w.ktxExtractOk x h3)))
                · rcases dlb_shape w.ktxInstDlOk w.ktxDllFound x h3 with h' | h' | h' | h' <;> tauto
              · rcases clib_shape w.ktxBinDll w.ktxVsFound w.ktxExportsOk w.ktxLibOk x h2 with h' | h' | h' <;> tauto
            · simp at h
              exact Or.inr (Or.inl ⟨q, h⟩)
    · simp at hx
      tauto
  · simp only at hx
    simp at hx
    exact Or.inr (Or.inl ⟨p, hx⟩)

/-- Shape of the premake step's trace. -/
theorem premake_shape (w : World) :
    ∀ x ∈ (premakeStep w).1,
      x = Act.premakeRun "vs2022" ∨ x = Act.premakeRun "gmake2" ∨
      x = Act.waitEnter := by
  intro x hx
  unfold premakeStep at hx
  split_ifs at hx <;> simp at hx <;> tauto

/-- Anything after the Vulkan step comes from the KTX check or premake. -/
theorem tail_shape (w : World) :
    ∀ x ∈ tailActs w, x ∈ (checkKTXSDK w).1 ∨ x ∈ (premakeStep w).1 := by
  intro x hx
  unfold tailActs at hx
  rcases ho : vkOut (vkCall w).2 with _ | o <;> rw [ho] at hx <;> simp at hx
  · exact hx

/-! ## Counting helpers -/

theorem cntA_append (x : Act) (l1 l2 : List Act) :
    cntA x (l1 ++ l2) = cntA x l1 + cntA x l2 :=
  List.countP_append _ _ _

theorem cntA_eq_zero {x : Act} {l : List Act} (h : ∀ a ∈ l, a ≠ x) :
    cntA x l = 0 := by
  unfold cntA
  rw [List.countP_eq_zero]
  intro a ha
  simpa using h a ha

/-- Equal clone argument vectors come from equal paths. -/
theorem cloneArgv_path {s t : RepoSpec} (h : cloneArgv s = cloneArgv t) :
    s.path = t.path := by
  simp [cloneArgv] at h
  exact h.2.2

/-- One iteration contains at most one clone command. -/
theorem specActs_cnt_clone (w : World) (s t : RepoSpec) :
    cntA (Act.gitCloneC (cloneArgv t)) (specActs w s) ≤ 1 := by
  unfold specActs
  cases hd : w.dirState s.path <;>
    simp [cntA, List.countP_cons] <;> split_ifs <;> simp

/-- Iterations of other paths contain no clone of this argv. -/
theorem specActs_cnt_clone_zero (w : World) (s t : RepoSpec)
    (h : s.path ≠ t.path) :
    cntA (Act.gitCloneC (cloneArgv t)) (specActs w s) = 0 := by
  apply cntA_eq_zero
  intro a ha
  rcases specActs_shape w s a ha with rfl | rfl | rfl <;> simp
  intro hEq
  exact h (cloneArgv_path hEq)

/-- Over a list of specs with distinct paths, each clone argv appears at
most once. -/
theorem cloneLoop_cnt_clone (w : World) :
    ∀ l : List RepoSpec, (l.map (fun s => s.path)).Nodup →
      ∀ t : RepoSpec, cntA (Act.gitCloneC (cloneArgv t)) (cloneLoopOver w l) ≤ 1 := by
  intro l
  induction l with
  | nil => intro _ t; simp [cloneLoopOver, cntA]
  | cons s rest ih =>
    intro hnd t
    rw [List.map_cons, List.nodup_cons] at hnd
    obtain ⟨hsp, hnd'⟩ := hnd
    have hsplit : cloneLoopOver w (s :: rest) = specActs w s ++ cloneLoopOver w rest := by
      simp [cloneLoopOver]
    rw [hsplit, cntA_append]
    by_cases hst : s.path = t.path
    · have hz : cntA (Act.gitCloneC (cloneArgv t)) (cloneLoopOver w rest) = 0 := by
        apply cntA_eq_zero
        intro a ha hEq
        subst hEq
        rcases cloneLoop_clone w rest (cloneArgv t) ha with ⟨u, hu, huv, _⟩
        have : u.path = t.path := cloneArgv_path huv.symm
        apply hsp
        rw [List.mem_map]
        exact ⟨u, hu, by rw [this, ← hst]⟩
      rw [hz]
      have := specActs_cnt_clone w s t
      omega
    · rw [specActs_cnt_clone_zero w s t hst]
      have := ih hnd' t
      omega

theorem cntA_eq_zero_mp {x : Act} {l : List Act} (h : cntA x l = 0) :
    ∀ a ∈ l, a ≠ x := by
  intro a ha
  have := List.countP_eq_zero.mp h a ha
  simpa using this

/-- No pip install outside the package step. -/
theorem cnt_zero_validate (w : World) {x : Act}
    (hx : ∀ p, x ≠ Act.pipInstallA p) : cntA x (validatePackagesM w).1 = 0 :=
  cntA_eq_zero fun a ha => by
    obtain ⟨p, _, rfl⟩ := validate_shape w packagesList a ha
    exact (hx p).symm

theorem cnt_zero_bulk (w : World) {x : Act}
    (hx : x ≠ Act.gitBulkInit ∧ x ≠ Act.gitResetHard ∧ x ≠ Act.gitCleanFd) :
    cntA x (bulkActs w) = 0 :=
  cntA_eq_zero fun a ha => by
    rcases bulk_shape w a ha with rfl | rfl | rfl
    · exact hx.1.symm
    · exact hx.2.1.symm
    · exact hx.2.2.symm

theorem cnt_zero_cloneLoop (w : World) {x : Act}
    (hx : ∀ s : RepoSpec, x ≠ Act.repoChecked s.path ∧ x ≠ Act.rmTree s.path ∧
      x ≠ Act.gitCloneC (cloneArgv s)) : cntA x (cloneLoopActs w) = 0 :=
  cntA_eq_zero fun a ha => by
    obtain ⟨s, _, h⟩ := cloneLoopOver_shape w submodules a ha
    rcases specActs_shape w s a h with rfl | rfl | rfl
    · exact ((hx s).1).symm
    · exact ((hx s).2.1).symm
    · exact ((hx s).2.2).symm

theorem cnt_zero_integrity (w : World) {x : Act}
    (hx : (∀ n, x ≠ Act.reportMissing n) ∧ x ≠ Act.waitEnter) :
    cntA x (integrityActs w) = 0 :=
  cntA_eq_zero fun a ha => by
    rcases integrity_shape w a ha with ⟨n, rfl⟩ | rfl
    · exact (hx.1 n).symm
    · exact hx.2.symm

theorem cnt_zero_assimp (w : World) {x : Act}
    (hx : x ≠ Act.writeFileA assimpConfigPath assimpContent) :
    cntA x (assimpActs w) = 0 :=
  cntA_eq_zero fun a ha => by
    have := assimp_shape w a ha
    subst this
    exact hx.symm

theorem cnt_zero_vk (w : World) {x : Act}
    (hx : x ≠ Act.promptYN "vulkan-install" ∧
      x ≠ Act.downloadA VULKAN_SDK_INSTALLER_URL VULKAN_SDK_EXE_PATH ∧
      x ≠ Act.startFileA VULKAN_SDK_EXE_PATH ∧ x ≠ Act.waitEnter) :
    cntA x (vkCall w).1 = 0 :=
  cntA_eq_zero fun a ha => by
    rcases vk_acts_shape w.vkEnv w.vkAnswer w.vkDlOk a ha with rfl | rfl | rfl | rfl
    · exact hx.1.symm
    · exact hx.2.1.symm
    · exact hx.2.2.1.symm
    · exact hx.2.2.2.symm

theorem cnt_zero_ktx (w : World) {x : Act}
    (hx : x ≠ Act.promptYN "ktx-install" ∧ (∀ p, x ≠ saveKTXAct p) ∧
      x ≠ Act.downloadA KTX_SOURCE_URL ktxZipPath ∧
      x ≠ Act.downloadA KTX_INSTALLER_URL ktxInstPath ∧
      x ≠ Act.startFileA ktxInstPath ∧ x ≠ Act.waitEnter ∧
      x ≠ Act.copyFileA "C:/Program Files/KTX-Software/bin/ktx.dll"
            (KTX_SDK_LOCAL_PATH ++ "/bin/ktx.dll") ∧
      x ≠ Act.dumpbinRun ∧ x ≠ Act.ktxWriteDef ∧ x ≠ Act.libToolRun) :
    cntA x (checkKTXSDK w).1 = 0 :=
  cntA_eq_zero fun a ha => by
    rcases ktx_shape w a ha with rfl | ⟨p, rfl⟩ | rfl | rfl | rfl | rfl | rfl | rfl | rfl | rfl
    · exact hx.1.symm
    · exact (hx.2.1 p).symm
    · exact hx.2.2.1.symm
    · exact hx.2.2.2.1.symm
    · exact hx.2.2.2.2.1.symm
    · exact hx.2.2.2.2.2.1.symm
    · exact hx.2.2.2.2.2.2.1.symm
    · exact hx.2.2.2.2.2.2.2.1.symm
    · exact hx.2.2.2.2.2.2.2.2.1.symm
    · exact hx.2.2.2.2.2.2.2.2.2.symm

theorem cnt_zero_premake (w : World) {x : Act}
    (hx : x ≠ Act.premakeRun "vs2022" ∧ x ≠ Act.premakeRun "gmake2" ∧
      x ≠ Act.waitEnter) : cntA x (premakeStep w).1 = 0 :=
  cntA_eq_zero fun a ha => by
    rcases premake_shape w a ha with rfl | rfl | rfl
    · exact hx.1.symm
    · exact hx.2.1.symm
    · exact hx.2.2.symm

/-- The tail's counts are bounded by the KTX and premake counts. -/
theorem cntA_tail_le (w : World) (x : Act) :
    cntA x (tailActs w) ≤ cntA x (checkKTXSDK w).1 + cntA x (premakeStep w).1 := by
  unfold tailActs
  rcases vkOut (vkCall w).2 with _ | o
  · dsimp only
    rw [cntA_append]
  · dsimp only
    simp [cntA]

/-- Premake runs at most once. -/
theorem premake_cnt (w : World) (g : String) :
    cntA (Act.premakeRun g) (premakeStep w).1 ≤ 1 := by
  unfold premakeStep
  split_ifs <;> simp [cntA, List.countP_cons, List.countP_nil] <;>
    split_ifs <;> simp

/-- Each package's pip install happens at most once. -/
theorem validate_cnt_pip (w : World) :
    ∀ l : List String, l.Nodup → ∀ p,
      cntA (Act.pipInstallA p) (validateList w l).1 ≤ 1 := by
  intro l
  induction l with
  | nil => intro _ p; simp [validateList, cntA]
  | cons q rest ih =>
    intro hnd p
    rw [List.nodup_cons] at hnd
    obtain ⟨hq, hnd'⟩ := hnd
    have hacts := validatePackage_acts w q
    unfold validateList
    rcases h : validatePackage w q with ⟨a, r⟩
    rw [h] at hacts
    have ha1 : cntA (Act.pipInstallA p) a ≤ 1 := by
      rcases hacts with rfl | rfl
      · simp [cntA]
      · simp only [cntA, List.countP_cons, List.countP_nil]
        split_ifs <;> simp
    cases r with
    | some o =>
      simp only
      exact ha1
    | none =>
      simp only
      rw [cntA_append]
      by_cases hpq : p = q
      · subst hpq
        have hz : cntA (Act.pipInstallA p) (validateList w rest).1 = 0 := by
          apply cntA_eq_zero
          intro y hy hEq
          obtain ⟨p', hp', hy2⟩ := validate_shape w rest y hy
          rw [hy2] at hEq
          have : p' = p := by
            have := hEq
            injection this
          exact hq (this ▸ hp')
        omega
      · have hz : cntA (Act.pipInstallA p) a = 0 := by
          rcases hacts with rfl | rfl
          · simp [cntA]
          · apply cntA_eq_zero
            intro y hy
            simp only [List.mem_singleton] at hy
            subst hy
            intro hEq
            injection hEq with h'
            exact hpq h'.symm
        rw [hz]
        simpa using ih hnd' p

/-! ## Restriction lemmas over the whole trace -/

/-- A removal in the whole run can only come from the clone loop, for a
spec whose directory was empty. -/
theorem rmTree_only_cloneLoop (w : World) (h1 : (validatePackagesM w).2 = none)
    (p : String) (h : Act.rmTree p ∈ (runSetup w).1) :
    ∃ u ∈ submodules, u.path = p ∧ w.dirState u.path = DirState.empty := by
  rcases (mem_trace_iff w h1 _).mp h with hseg | hseg | hseg | hseg | hseg | hseg | hseg
  · obtain ⟨q, _, hq⟩ := validate_shape w packagesList _ hseg
    simp at hq
  · rcases bulk_shape w _ hseg with h' | h' | h' <;> simp at h'
  · exact cloneLoop_rmTree w submodules p hseg
  · rcases integrity_shape w _ hseg with ⟨n, h'⟩ | h' <;> simp at h'
  · have := assimp_shape w _ hseg
    simp at this
  · rcases vk_acts_shape w.vkEnv w.vkAnswer w.vkDlOk _ hseg with h' | h' | h' | h' <;>
      simp at h'
  · rcases tail_shape w _ hseg with h' | h'
    · rcases ktx_shape w _ h' with h2 | ⟨q, h2⟩ | h2 | h2 | h2 | h2 | h2 | h2 | h2 | h2 <;>
        simp [saveKTXAct] at h2
    · rcases premake_shape w _ h' with h2 | h2 | h2 <;> simp at h2

/-- A git clone in the whole run can only come from the clone loop, with
some listed spec's exact argument vector, for a directory that was not
non-empty. -/
theorem clone_only_cloneLoop (w : World) (h1 : (validatePackagesM w).2 = none)
    (argv : List String) (h : Act.gitCloneC argv ∈ (runSetup w).1) :
    ∃ u ∈ submodules, argv = cloneArgv u ∧
      w.dirState u.path ≠ DirState.nonempty := by
  rcases (mem_trace_iff w h1 _).mp h with hseg | hseg | hseg | hseg | hseg | hseg | hseg
  · obtain ⟨q, _, hq⟩ := validate_shape w packagesList _ hseg
    simp at hq
  · rcases bulk_shape w _ hseg with h' | h' | h' <;> simp at h'
  · exact cloneLoop_clone w submodules argv hseg
  · rcases integrity_shape w _ hseg with ⟨n, h'⟩ | h' <;> simp at h'
  · have := assimp_shape w _ hseg
    simp at this
  · rcases vk_acts_shape w.vkEnv w.vkAnswer w.vkDlOk _ hseg with h' | h' | h' | h' <;>
      simp at h'
  · rcases tail_shape w _ hseg with h' | h'
    · rcases ktx_shape w _ h' with h2 | ⟨q, h2⟩ | h2 | h2 | h2 | h2 | h2 | h2 | h2 | h2 <;>
        simp [saveKTXAct] at h2
    · rcases premake_shape w _ h' with h2 | h2 | h2 <;> simp at h2

/-! ## Claim C4: non-empty repository directories are never touched -/

/-- Claim C4: for a listed spec whose directory is non-empty, the run
never removes that directory and never clones into its path — whatever
the probe results are; and a missing required-file probe is reported by
the integrity step, never repaired. -/
theorem C4_nonempty_preserved (w : World) (s : RepoSpec)
    (h1 : (validatePackagesM w).2 = none) (_hs : s ∈ submodules)
    (hne : w.dirState s.path = DirState.nonempty) :
    Act.rmTree s.path ∉ (runSetup w).1 ∧
    (∀ b u : String,
        Act.gitCloneC ["git", "clone", "--depth", "1", "-b", b, u, s.path] ∉
          (runSetup w).1) ∧
    (∀ pr ∈ requiredFiles, w.probe pr.1 = false →
        Act.reportMissing pr.2 ∈ (runSetup w).1) := by
  refine ⟨?_, ?_, ?_⟩
  · intro h
    rcases rmTree_only_cloneLoop w h1 s.path h with ⟨u, hu, hup, hemp⟩
    have hse : w.dirState s.path = DirState.empty := by
      rw [← hup]
      exact hemp
    rw [hne] at hse
    simp at hse
  · intro b u h
    rcases clone_only_cloneLoop w h1 _ h with ⟨v, hv, hargv, hnev⟩
    simp only [cloneArgv, List.cons.injEq, and_true, true_and] at hargv
    apply hnev
    rw [show v.path = s.path from hargv.2.2.symm]
    exact hne
  · intro pr hpr hp
    rw [mem_trace_iff w h1]
    exact Or.inr (Or.inr (Or.inr (Or.inl (integrity_mem_report w pr hpr hp))))

/-- Witness for `C4_nonempty_preserved`: GLFW populated but its header
probe missing — reported, not repaired. -/
theorem C4_witness :
    ((validatePackagesM wC4).2 = none ∧
     (⟨"vendor/GLFW", "https://github.com/glfw/glfw.git", "master"⟩ : RepoSpec) ∈
       submodules ∧
     wC4.dirState "vendor/GLFW" = DirState.nonempty) ∧
    (Act.rmTree "vendor/GLFW" ∉ (runSetup wC4).1 ∧
     (∀ b u : String,
        Act.gitCloneC ["git", "clone", "--depth", "1", "-b", b, u, "vendor/GLFW"] ∉
          (runSetup wC4).1) ∧
     (∀ pr ∈ requiredFiles, wC4.probe pr.1 = false →
        Act.reportMissing pr.2 ∈ (runSetup wC4).1)) :=
  ⟨⟨rfl, by decide, rfl⟩,
   C4_nonempty_preserved wC4
     ⟨"vendor/GLFW", "https://github.com/glfw/glfw.git", "master"⟩ rfl
     (by decide) rfl⟩

/-! ## Claim C5: empty or missing repository directories are recloned -/

/-- Claim C5: for a listed spec, an existing-but-empty directory is
removed and then cloned with the exact shallow single-branch command
`git clone --depth 1 -b <branch> <url> <path>`; a missing directory gets
the same clone with no removal. -/
theorem C5_stale_recloned (w : World) (s : RepoSpec)
    (h1 : (validatePackagesM w).2 = none) (hs : s ∈ submodules) :
    (w.dirState s.path = DirState.empty →
        Act.rmTree s.path ∈ (runSetup w).1 ∧
        Act.gitCloneC ["git", "clone", "--depth", "1", "-b", s.branch, s.url, s.path] ∈
          (runSetup w).1) ∧
    (w.dirState s.path = DirState.missing →
        Act.rmTree s.path ∉ (runSetup w).1 ∧
        Act.gitCloneC ["git", "clone", "--depth", "1", "-b", s.branch, s.url, s.path] ∈
          (runSetup w).1) := by
  have hmemCL : ∀ x ∈ specActs w s, x ∈ (runSetup w).1 := by
    intro x hx
    rw [mem_trace_iff w h1]
    exact Or.inr (Or.inr (Or.inl (cloneLoop_mem w submodules s hs x hx)))
  constructor
  · intro hd
    constructor
    · apply hmemCL
      unfold specActs
      rw [hd]
      simp
    · apply hmemCL
      unfold specActs
      rw [hd]
      simp [cloneArgv]
  · intro hd
    constructor
    · intro h
      rcases rmTree_only_cloneLoop w h1 s.path h with ⟨u, hu, hup, hemp⟩
      have hse : w.dirState s.path = DirState.empty := by
        rw [← hup]
        exact hemp
      rw [hd] at hse
      simp at hse
    · apply hmemCL
      unfold specActs
      rw [hd]
      simp [cloneArgv]

/-- Witness for `C5_stale_recloned`: GLFW's directory empty. -/
theorem C5_witness :
    ((validatePackagesM wC5).2 = none ∧
     (⟨"vendor/GLFW", "https://github.com/glfw/glfw.git", "master"⟩ : RepoSpec) ∈
       submodules ∧
     wC5.dirState "vendor/GLFW" = DirState.empty) ∧
    ((wC5.dirState "vendor/GLFW" = DirState.empty →
        Act.rmTree "vendor/GLFW" ∈ (runSetup wC5).1 ∧
        Act.gitCloneC ["git", "clone", "--depth", "1", "-b", "master",
          "https://github.com/glfw/glfw.git", "vendor/GLFW"] ∈ (runSetup wC5).1) ∧
     (wC5.dirState "vendor/GLFW" = DirState.missing →
        Act.rmTree "vendor/GLFW" ∉ (runSetup wC5).1 ∧
        Act.gitCloneC ["git", "clone", "--depth", "1", "-b", "master",
          "https://github.com/glfw/glfw.git", "vendor/GLFW"] ∈ (runSetup wC5).1)) :=
  ⟨⟨rfl, by decide, rfl⟩,
   C5_stale_recloned wC5
     ⟨"vendor/GLFW", "https://github.com/glfw/glfw.git", "master"⟩ rfl (by decide)⟩

/-! ## Claim C3: bulk init retried exactly once, no other retry -/

/-- Claim C3: when the first bulk submodule init exits non-zero, the run
performs the destructive reset (hard reset then clean over all
submodules) and retries the bulk init exactly once — the bulk init
command appears exactly twice in the whole run, with the reset and clean
between the two attempts, each appearing exactly once.  Whatever the
retry returned, the per-repository clone loop still visits every spec of
the fixed list.  No other command is retried anywhere in the run: each
spec's clone command, each package's pip install, and each premake
invocation occur at most once. -/
theorem C3_bulk_retry_once (w : World)
    (h1 : (validatePackagesM w).2 = none) (hb : w.bulkInit1 ≠ 0) :
    bulkActs w = [Act.gitBulkInit, Act.gitResetHard, Act.gitCleanFd, Act.gitBulkInit] ∧
    cntA Act.gitBulkInit (runSetup w).1 = 2 ∧
    cntA Act.gitResetHard (runSetup w).1 = 1 ∧
    cntA Act.gitCleanFd (runSetup w).1 = 1 ∧
    (∀ s ∈ submodules, Act.repoChecked s.path ∈ (runSetup w).1) ∧
    (∀ s ∈ submodules, cntA (Act.gitCloneC (cloneArgv s)) (runSetup w).1 ≤ 1) ∧
    (∀ g : String, cntA (Act.premakeRun g) (runSetup w).1 ≤ 1) ∧
    (∀ p : String, cntA (Act.pipInstallA p) (runSetup w).1 ≤ 1) := by
  have htr := runSetup_trace w h1
  have hbulk : bulkActs w =
      [Act.gitBulkInit, Act.gitResetHard, Act.gitCleanFd, Act.gitBulkInit] := by
    unfold bulkActs
    rw [if_pos hb]
  refine ⟨hbulk, ?_, ?_, ?_, ?_, ?_, ?_, ?_⟩
  · rw [htr]
    simp only [cntA_append]
    rw [cnt_zero_validate w (by intro p; simp),
        cnt_zero_cloneLoop w (by intro s; refine ⟨by simp, by simp, by simp⟩),
        cnt_zero_integrity w ⟨by intro n; simp, by simp⟩,
        cnt_zero_assimp w (by simp),
        cnt_zero_vk w ⟨by simp, by simp, by simp, by simp⟩]
    have htail : cntA Act.gitBulkInit (tailActs w) = 0 := by
      have hk := cnt_zero_ktx w (x := Act.gitBulkInit)
        ⟨by simp, by intro p; simp [saveKTXAct], by simp, by simp, by simp,
         by simp, by simp, by simp, by simp, by simp⟩
      have hp := cnt_zero_premake w (x := Act.gitBulkInit) ⟨by simp, by simp, by simp⟩
      have := cntA_tail_le w Act.gitBulkInit
      omega
    rw [htail, hbulk]
    rfl
  · rw [htr]
    simp only [cntA_append]
    rw [cnt_zero_validate w (by intro p; simp),
        cnt_zero_cloneLoop w (by intro s; refine ⟨by simp, by simp, by simp⟩),
        cnt_zero_integrity w ⟨by intro n; simp, by simp⟩,
        cnt_zero_assimp w (by simp),
        cnt_zero_vk w ⟨by simp, by simp, by simp, by simp⟩]
    have htail : cntA Act.gitResetHard (tailActs w) = 0 := by
      have hk := cnt_zero_ktx w (x := Act.gitResetHard)
        ⟨by simp, by intro p; simp [saveKTXAct], by simp, by simp, by simp,
         by simp, by simp, by simp, by simp, by simp⟩
      have hp := cnt_zero_premake w (x := Act.gitResetHard) ⟨by simp, by simp, by simp⟩
      have := cntA_tail_le w Act.gitResetHard
      omega
    rw [htail, hbulk]
    rfl
  · rw [htr]
    simp only [cntA_append]
    rw [cnt_zero_validate w (by intro p; simp),
        cnt_zero_cloneLoop w (by intro s; refine ⟨by simp, by simp, by simp⟩),
        cnt_zero_integrity w ⟨by intro n; simp, by simp⟩,
        cnt_zero_assimp w (by simp),
        cnt_zero_vk w ⟨by simp, by simp, by simp, by simp⟩]
    have htail : cntA Act.gitCleanFd (tailActs w) = 0 := by
      have hk := cnt_zero_ktx w (x := Act.gitCleanFd)
        ⟨by simp, by intro p; simp [saveKTXAct], by simp, by simp, by simp,
         by simp, by simp, by simp, by simp, by simp⟩
      have hp := cnt_zero_premake w (x := Act.gitCleanFd) ⟨by simp, by simp, by simp⟩
      have := cntA_tail_le w Act.gitCleanFd
      omega
    rw [htail, hbulk]
    rfl
  · intro s hs
    rw [mem_trace_iff w h1]
    refine Or.inr (Or.inr (Or.inl ?_))
    exact cloneLoop_mem w submodules s hs _ (by unfold specActs; exact List.mem_cons_self _ _)
  · intro s hs
    rw [htr]
    simp only [cntA_append]
    rw [cnt_zero_validate w (by intro p; simp),
        cnt_zero_bulk w ⟨by simp, by simp, by simp⟩,
        cnt_zero_integrity w ⟨by intro n; simp, by simp⟩,
        cnt_zero_assimp w (by simp),
        cnt_zero_vk w ⟨by simp, by simp, by simp, by simp⟩]
    have htail : cntA (Act.gitCloneC (cloneArgv s)) (tailActs w) = 0 := by
      have hk := cnt_zero_ktx w (x := Act.gitCloneC (cloneArgv s))
        ⟨by simp, by intro p; simp [saveKTXAct], by simp, by simp, by simp,
         by simp, by simp, by simp, by simp, by simp⟩
      have hp := cnt_zero_premake w (x := Act.gitCloneC (cloneArgv s))
        ⟨by simp, by simp, by simp⟩
      have := cntA_tail_le w (Act.gitCloneC (cloneArgv s))
      omega
    rw [htail]
    have hcl : cntA (Act.gitCloneC (cloneArgv s)) (cloneLoopActs w) ≤ 1 := by
      unfold cloneLoopActs
      exact cloneLoop_cnt_clone w submodules (by decide) s
    omega
  · intro g
    rw [htr]
    simp only [cntA_append]
    rw [cnt_zero_validate w (by intro p; simp),
        cnt_zero_bulk w ⟨by simp, by simp, by simp⟩,
        cnt_zero_cloneLoop w (by intro s; refine ⟨by simp, by simp, by simp⟩),
        cnt_zero_integrity w ⟨by intro n; simp, by simp⟩,
        cnt_zero_assimp w (by simp),
        cnt_zero_vk w ⟨by simp, by simp, by simp, by simp⟩]
    have hk := cnt_zero_ktx w (x := Act.premakeRun g)
      ⟨by simp, by intro p; simp [saveKTXAct], by simp, by simp, by simp,
       by simp, by simp, by simp, by simp, by simp⟩
    have hp := premake_cnt w g
    have := cntA_tail_le w (Act.premakeRun g)
    omega
  · intro p
    rw [htr]
    simp only [cntA_append]
    rw [cnt_zero_bulk w ⟨by simp, by simp, by simp⟩,
        cnt_zero_cloneLoop w (by intro s; refine ⟨by simp, by simp, by simp⟩),
        cnt_zero_integrity w ⟨by intro n; simp, by simp⟩,
        cnt_zero_assimp w (by simp),
        cnt_zero_vk w ⟨by simp, by simp, by simp, by simp⟩]
    have htail : cntA (Act.pipInstallA p) (tailActs w) = 0 := by
      have hk := cnt_zero_ktx w (x := Act.pipInstallA p)
        ⟨by simp, by intro q; simp [saveKTXAct], by simp, by simp, by simp,
         by simp, by simp, by simp, by simp, by simp⟩
      have hp := cnt_zero_premake w (x := Act.pipInstallA p) ⟨by simp, by simp, by simp⟩
      have := cntA_tail_le w (Act.pipInstallA p)
      omega
    rw [htail]
    have hv : cntA (Act.pipInstallA p) (validatePackagesM w).1 ≤ 1 :=
      validate_cnt_pip w packagesList (by decide) p
    omega

/-- Witness for `C3_bulk_retry_once`: both bulk attempts fail, all
repositories missing. -/
theorem C3_witness :
    ((validatePackagesM wC3).2 = none ∧ wC3.bulkInit1 ≠ 0) ∧
    (bulkActs wC3 =
        [Act.gitBulkInit, Act.gitResetHard, Act.gitCleanFd, Act.gitBulkInit] ∧
     cntA Act.gitBulkInit (runSetup wC3).1 = 2 ∧
     cntA Act.gitResetHard (runSetup wC3).1 = 1 ∧
     cntA Act.gitCleanFd (runSetup wC3).1 = 1 ∧
     (∀ s ∈ submodules, Act.repoChecked s.path ∈ (runSetup wC3).1) ∧
     (∀ s ∈ submodules, cntA (Act.gitCloneC (cloneArgv s)) (runSetup wC3).1 ≤ 1) ∧
     (∀ g : String, cntA (Act.premakeRun g) (runSetup wC3).1 ≤ 1) ∧
     (∀ p : String, cntA (Act.pipInstallA p) (runSetup wC3).1 ≤ 1)) :=
  ⟨⟨rfl, by decide⟩, C3_bulk_retry_once wC3 rfl (by decide)⟩

/-- Claim C10: `CheckVulkanSDK` accepts (returns `True` with no prompt —
indeed with no action at all) exactly when the `VULKAN_SDK` environment
variable is set and the literal version string `1.3.290` occurs as a
substring of its value.  The check reads no filesystem path: its
translation takes only the environment value and the operator inputs. -/
theorem C10_vulkan_acceptance (env : Option String) (a d : Bool) :
    checkVulkanSDK env a d = ([], VkRes.accepted) ↔
      ∃ s pre post, env = some s ∧
        s.data = pre ++ LUNEX_VULKAN_VERSION.data ++ post := by
  cases env with
  | none =>
    constructor
    · intro hEq
      exfalso
      cases a <;> cases d <;>
        simp [checkVulkanSDK, installVulkanPrompt, installVulkanSDK] at hEq
    · rintro ⟨s, pre, post, hs, _⟩
      exact absurd hs (by simp)
  | some s =>
    by_cases hc : containsSub LUNEX_VULKAN_VERSION.data s.data = true
    · rw [containsSub_iff] at hc
      obtain ⟨pre, post, hp⟩ := hc
      have hc2 : containsSub LUNEX_VULKAN_VERSION.data s.data = true := by
        rw [containsSub_iff]; exact ⟨pre, post, hp⟩
      simp only [checkVulkanSDK, hc2, if_pos]
      constructor
      · intro _
        exact ⟨s, pre, post, rfl, hp⟩
      · intro _
        trivial
    · have hc' : containsSub LUNEX_VULKAN_VERSION.data s.data = false := by
        simpa using hc
      constructor
      · intro hEq
        exfalso
        cases a <;> cases d <;>
          simp [checkVulkanSDK, hc', installVulkanPrompt, installVulkanSDK] at hEq
      · rintro ⟨s', pre, post, hs, hdata⟩
        injection hs with hs'
        subst hs'
        exact absurd ((containsSub_iff _ _).mpr ⟨pre, post, hdata⟩) hc

/-! ## Claim C2: package verification is fail-fast, not best-effort -/

/-- Claim C2 counterexample: with `requests` not importable and its pip
install exiting non-zero, the whole run aborts after the single failed
install — `fake-useragent` is never checked or installed, contradicting
the claimed best-effort continuation. -/
theorem C2_counterexample :
    runSetup wC2 = ([Act.pipInstallA "requests"], Outcome.raised) ∧
    Act.pipInstallA "fake-useragent" ∉ (runSetup wC2).1 := by
  refine ⟨rfl, ?_⟩
  intro h
  rw [show (runSetup wC2).1 = [Act.pipInstallA "requests"] from rfl] at h
  simp at h

/-- Claim C2 amended: when installing a package fails, the
`CalledProcessError` from `subprocess.check_call` propagates — the
remaining packages of the sequence are never checked, and since
`Setup.py` does not catch it, the run aborts with a non-zero exit. -/
theorem C2_install_failfast (w : World) (p : String) (rest : List String)
    (h1 : w.importable (pyModName p) = false) (h2 : w.pipOk p = false)
    (h3 : w.importable (pyModName "requests") = false)
    (h4 : w.pipOk "requests" = false) :
    validateList w (p :: rest) = ([Act.pipInstallA p], some Outcome.raised) ∧
    runSetup w = ([Act.pipInstallA "requests"], Outcome.raised) ∧
    exitCode (runSetup w).2 = 1 := by
  have hv : validatePackagesM w = ([Act.pipInstallA "requests"], some Outcome.raised) := by
    simp [validatePackagesM, packagesList, validateList, validatePackage, h3, h4]
  have hrun : runSetup w = ([Act.pipInstallA "requests"], Outcome.raised) := by
    unfold runSetup
    rw [hv]
  refine ⟨?_, hrun, ?_⟩
  · simp [validateList, validatePackage, h1, h2]
  · rw [hrun]
    rfl

/-- Witness for `C2_install_failfast` at a concrete world. -/
theorem C2_witness :
    (wC2.importable (pyModName "fake-useragent") = false ∧
     wC2.pipOk "fake-useragent" = false ∧
     wC2.importable (pyModName "requests") = false ∧
     wC2.pipOk "requests" = false) ∧
    (validateList wC2 ["fake-useragent"] =
        ([Act.pipInstallA "fake-useragent"], some Outcome.raised) ∧
     runSetup wC2 = ([Act.pipInstallA "requests"], Outcome.raised) ∧
     exitCode (runSetup wC2).2 = 1) :=
  ⟨⟨rfl, rfl, rfl, rfl⟩,
   C2_install_failfast wC2 "fake-useragent" [] rfl rfl rfl rfl⟩

/-! ## Claim C8: locator search order -/

/-- Claim C8 counterexample: the graphics-SDK check (`CheckVulkanSDK`)
has no local-vendor-directory probe at all.  Its translation from
`Vulkan.py` lines 44-60 takes no filesystem input: with `VULKAN_SDK`
unset it reports not-installed and prompts, whatever is on disk, and it
accepts purely on the version substring of the variable — so "for both
SDK locators, Locate() checks the fixed local vendor directory …
before the environment-variable SDK root (validated the same way)" is
false for the Vulkan instance. -/
theorem C8_counterexample :
    checkVulkanSDK none false true =
      ([Act.promptYN "vulkan-install"], VkRes.declined) ∧
    checkVulkanSDK (some "1.3.290") false true = ([], VkRes.accepted) := by
  constructor
  · rfl
  · have hc : containsSub LUNEX_VULKAN_VERSION.data ("1.3.290" : String).data = true := by
      decide
    simp [checkVulkanSDK, hc]

/-- Claim C8 amended: the texture-compression locator
(`KTX.GetKTXSDKPath`) checks the local vendor directory (validated by
`include/ktx.h`) first and returns it whenever it validates — even when
the `KTX_SDK` environment root is also valid; only when the local
candidate fails is the environment root consulted, with the same header
validation plus Python truthiness of the variable.  The graphics-SDK
check accepts only via the `VULKAN_SDK` environment variable's version
substring; it has no vendor-directory probe. -/
theorem C8_locator_order (pr : KtxProbe) (env : Option String) (la : String)
    (hl : pr.localDir = true) (hh : pr.localHdr = true) :
    getKTXSDKPath env la pr = some la ∧
    (∀ (k la2 : String) (lb1 lb2 eb1 eb2 : Bool), (lb1 && lb2) = false →
        getKTXSDKPath (some k) la2 ⟨lb1, lb2, eb1, eb2⟩ =
          (if (k != "") && eb1 && eb2 then some k else none)) ∧
    (∀ (env2 : Option String) (a d : Bool),
        (checkVulkanSDK env2 a d).2 = VkRes.accepted →
          ∃ s, env2 = some s ∧
            containsSub LUNEX_VULKAN_VERSION.data s.data = true) := by
  refine ⟨?_, ?_, ?_⟩
  · simp [getKTXSDKPath, hl, hh]
  · intro k la2 lb1 lb2 eb1 eb2 hlb
    simp [getKTXSDKPath, hlb]
  · intro env2 a d hacc
    cases env2 with
    | none =>
      exact absurd hacc (installVulkanPrompt_ne_accepted a d)
    | some s =>
      by_cases hc : containsSub LUNEX_VULKAN_VERSION.data s.data = true
      · exact ⟨s, rfl, hc⟩
      · have hc' : containsSub LUNEX_VULKAN_VERSION.data s.data = false := by
          simpa using hc
        rw [show checkVulkanSDK (some s) a d = installVulkanPrompt a d from by
          simp [checkVulkanSDK, hc']] at hacc
        exact absurd hacc (installVulkanPrompt_ne_accepted a d)

/-- Witness for `C8_locator_order`: both locations valid, local wins. -/
theorem C8_witness :
    ((⟨true, true, true, true⟩ : KtxProbe).localDir = true ∧
     (⟨true, true, true, true⟩ : KtxProbe).localHdr = true) ∧
    (getKTXSDKPath (some "E:/KTX-Software") "/proj/vendor/ktx"
        ⟨true, true, true, true⟩ = some "/proj/vendor/ktx" ∧
     (∀ (k la2 : String) (lb1 lb2 eb1 eb2 : Bool), (lb1 && lb2) = false →
        getKTXSDKPath (some k) la2 ⟨lb1, lb2, eb1, eb2⟩ =
          (if (k != "") && eb1 && eb2 then some k else none)) ∧
     (∀ (env2 : Option String) (a d : Bool),
        (checkVulkanSDK env2 a d).2 = VkRes.accepted →
          ∃ s, env2 = some s ∧
            containsSub LUNEX_VULKAN_VERSION.data s.data = true)) :=
  ⟨⟨rfl, rfl⟩,
   C8_locator_order ⟨true, true, true, true⟩ (some "E:/KTX-Software")
     "/proj/vendor/ktx" rfl rfl⟩

/-! ## Claim C9: generated SDK configuration files -/

/-- Claim C9 counterexample: in a full successful run in which both SDK
checks ran and both succeeded (Vulkan accepted from the environment, KTX
found locally), exactly one configuration file is written — the KTX one.
The graphics-SDK check writes no configuration file, so "each of the two
SDK checks writes one … configuration file" is false. -/
theorem C9_counterexample :
    (vkCall baseW).2 = VkRes.accepted ∧
    (checkKTXSDK baseW).2 = true ∧
    (runSetup baseW).1.filter isWriteAct =
      [Act.writeFileA "ktx_config.lua"
        "-- Auto-generated by KTX.py\nKTX_SDK_PATH = \"C:/dev/Lunex/vendor/ktx\"\n"] ∧
    (runSetup baseW).2 = Outcome.finished := by
  refine ⟨?_, rfl, ?_, rfl⟩ <;> rfl

/-- Claim C9 amended: the KTX check writes `ktx_config.lua` holding a
single assignment `KTX_SDK_PATH = "<path>"` whose path has every
backslash replaced by a forward slash before writing; the Vulkan check
writes no configuration file at all. -/
theorem C9_config_write (w : World) (p : String)
    (h : getKTXSDKPath w.ktxEnv w.ktxLocalAbs w.ktxPre = some p) :
    (∀ q : String, saveKTXContent q =
        "-- Auto-generated by KTX.py\n" ++ "KTX_SDK_PATH = \"" ++
          normSlash q ++ "\"\n" ∧
        ∀ c ∈ (normSlash q).data, c ≠ '\\') ∧
    (∀ (env : Option String) (a d : Bool) (pa co : String),
        Act.writeFileA pa co ∉ (checkVulkanSDK env a d).1) ∧
    saveKTXAct p ∈ (checkKTXSDK w).1 := by
  refine ⟨fun q => ⟨rfl, fun c hc => normChars_no_bs q.data c hc⟩, ?_, ?_⟩
  · intro env a d pa co hmem
    rcases vk_acts_shape env a d _ hmem with h' | h' | h' | h' <;> simp at h'
  · simp [checkKTXSDK, h, saveKTXAct]

/-- Witness for `C9_config_write` at the benign world (whose local KTX
path contains backslashes that the write normalizes away). -/
theorem C9_witness :
    getKTXSDKPath baseW.ktxEnv baseW.ktxLocalAbs baseW.ktxPre =
      some "C:\\dev\\Lunex\\vendor\\ktx" ∧
    ((∀ q : String, saveKTXContent q =
        "-- Auto-generated by KTX.py\n" ++ "KTX_SDK_PATH = \"" ++
          normSlash q ++ "\"\n" ∧
        ∀ c ∈ (normSlash q).data, c ≠ '\\') ∧
     (∀ (env : Option String) (a d : Bool) (pa co : String),
        Act.writeFileA pa co ∉ (checkVulkanSDK env a d).1) ∧
     saveKTXAct "C:\\dev\\Lunex\\vendor\\ktx" ∈ (checkKTXSDK baseW).1) :=
  ⟨rfl, C9_config_write baseW "C:\\dev\\Lunex\\vendor\\ktx" rfl⟩

/-! ## Claim C6: integrity verification -/

/-- Claim C6: the integrity step is ok (`missing` list empty) iff every
required-file probe of the fixed table exists; every failing probe is
reported; when something is missing the step only blocks on an operator
confirmation and the run still continues to the generator step, which
alone decides the exit; and every spec of the fixed submodule list has a
probe under its directory, so all specs are covered by the check. -/
theorem C6_integrity_check (w : World)
    (h1 : (validatePackagesM w).2 = none)
    (h2 : vkOut (vkCall w).2 = none) :
    (missingSubs w = [] ↔ ∀ pr ∈ requiredFiles, w.probe pr.1 = true) ∧
    (∀ pr ∈ requiredFiles, w.probe pr.1 = false →
        Act.reportMissing pr.2 ∈ (runSetup w).1) ∧
    (missingSubs w ≠ [] → Act.waitEnter ∈ integrityActs w) ∧
    (runSetup w).2 = (premakeStep w).2 ∧
    (∀ s ∈ submodules, ∃ pr ∈ requiredFiles,
        prefB (s.path ++ "/").data pr.1.data = true) := by
  refine ⟨?_, ?_, ?_, runSetup_out_premake w h1 h2, by decide⟩
  · unfold missingSubs
    rw [List.map_eq_nil_iff, List.filter_eq_nil_iff]
    constructor
    · intro h pr hpr
      have := h pr hpr
      simpa using this
    · intro h pr hpr
      simp [h pr hpr]
  · intro pr hpr hp
    rw [mem_trace_iff w h1]
    exact Or.inr (Or.inr (Or.inr (Or.inl (integrity_mem_report w pr hpr hp))))
  · intro hne
    unfold integrityActs
    apply List.mem_append_right
    rw [if_neg hne]
    simp

/-- Witness for `C6_integrity_check`: the GLM probe missing. -/
theorem C6_witness :
    ((validatePackagesM wC6).2 = none ∧ vkOut (vkCall wC6).2 = none) ∧
    ((missingSubs wC6 = [] ↔ ∀ pr ∈ requiredFiles, wC6.probe pr.1 = true) ∧
     (∀ pr ∈ requiredFiles, wC6.probe pr.1 = false →
        Act.reportMissing pr.2 ∈ (runSetup wC6).1) ∧
     (missingSubs wC6 ≠ [] → Act.waitEnter ∈ integrityActs wC6) ∧
     (runSetup wC6).2 = (premakeStep wC6).2 ∧
     (∀ s ∈ submodules, ∃ pr ∈ requiredFiles,
        prefB (s.path ++ "/").data pr.1.data = true)) :=
  ⟨⟨rfl, rfl⟩, C6_integrity_check wC6 rfl rfl⟩

/-! ## Claim C7: SDK install flows -/

/-- Claim C7 counterexample: with `VULKAN_SDK` unset and the operator
accepting the install prompt, the run downloads the installer, launches
it, blocks on the confirmation — and then the process exits with code 0.
`Locate` is never re-run (no action follows the blocking wait) and the
run does not continue past the install step: the KTX and generator steps
never execute, refuting "re-runs Locate() to verify … the run continues
past the install step" for the graphics SDK. -/
theorem C7_counterexample :
    runSetup wC7 =
      ([Act.gitBulkInit,
        Act.repoChecked "vendor/GLFW", Act.repoChecked "vendor/ImGuiLib",
        Act.repoChecked "vendor/glm", Act.repoChecked "vendor/ImGuizmo",
        Act.repoChecked "vendor/imnodes", Act.repoChecked "vendor/yaml-cpp",
        Act.repoChecked "vendor/Box2D", Act.repoChecked "vendor/assimp",
        Act.repoChecked "vendor/Bullet3",
        Act.promptYN "vulkan-install",
        Act.downloadA VULKAN_SDK_INSTALLER_URL VULKAN_SDK_EXE_PATH,
        Act.startFileA VULKAN_SDK_EXE_PATH, Act.waitEnter],
       Outcome.exited 0) := by
  rfl

/-- Claim C7 amended: the graphics-SDK install path downloads the
installer, launches it, blocks on the operator confirmation and then
exits the process with code 0 — it does not re-run its locate check and
the run does not continue.  The texture-compression install path, by
contrast, blocks on its confirmation, then re-runs `GetKTXSDKPath()` on
the post-install filesystem and returns that outcome to the caller, and
the run continues to the generator step. -/
theorem C7_install_flow (w : World)
    (h1 : (validatePackagesM w).2 = none)
    (h2 : vkOut (vkCall w).2 = none)
    (hk0 : getKTXSDKPath w.ktxEnv w.ktxLocalAbs w.ktxPre = none)
    (ha : w.ktxAnswer = true)
    (hs1 : w.ktxSrcDlOk = true) (hs2 : w.ktxExtractOk = true)
    (hs3 : w.ktxInstDlOk = true) (hs4 : w.ktxDllFound = true) :
    checkVulkanSDK none true true =
      ([Act.promptYN "vulkan-install",
        Act.downloadA VULKAN_SDK_INSTALLER_URL VULKAN_SDK_EXE_PATH,
        Act.startFileA VULKAN_SDK_EXE_PATH, Act.waitEnter], VkRes.exitedInstall) ∧
    vkOut VkRes.exitedInstall = some (Outcome.exited 0) ∧
    (checkKTXSDK w).2 = (getKTXSDKPath w.ktxEnv w.ktxLocalAbs w.ktxPost).isSome ∧
    Act.startFileA ktxInstPath ∈ (checkKTXSDK w).1 ∧
    Act.waitEnter ∈ (checkKTXSDK w).1 ∧
    (runSetup w).2 = (premakeStep w).2 := by
  have hck : checkKTXSDK w =
      (Act.promptYN "ktx-install" :: (installKTXSDK w).1, (installKTXSDK w).2) := by
    unfold checkKTXSDK
    rw [hk0]
    simp [ha]
  refine ⟨rfl, rfl, ?_, ?_, ?_, runSetup_out_premake w h1 h2⟩
  · rw [hck]
    rcases hpost : getKTXSDKPath w.ktxEnv w.ktxLocalAbs w.ktxPost with _ | p <;>
      simp [installKTXSDK, downloadAndExtractSource, downloadBinaries,
        hs1, hs2, hs3, hs4, hpost]
  · rw [hck]
    rcases hpost : getKTXSDKPath w.ktxEnv w.ktxLocalAbs w.ktxPost with _ | p <;>
      simp [installKTXSDK, downloadAndExtractSource, downloadBinaries,
        hs1, hs2, hs3, hs4, hpost]
  · rw [hck]
    rcases hpost : getKTXSDKPath w.ktxEnv w.ktxLocalAbs w.ktxPost with _ | p <;>
      simp [installKTXSDK, downloadAndExtractSource, downloadBinaries,
        hs1, hs2, hs3, hs4, hpost]

/-- Witness for `C7_install_flow`: KTX absent, operator accepts, both
downloads succeed, and the post-install locate finds the vendor tree. -/
theorem C7_witness :
    ((validatePackagesM wC7b).2 = none ∧ vkOut (vkCall wC7b).2 = none ∧
     getKTXSDKPath wC7b.ktxEnv wC7b.ktxLocalAbs wC7b.ktxPre = none ∧
     wC7b.ktxAnswer = true ∧ wC7b.ktxSrcDlOk = true ∧ wC7b.ktxExtractOk = true ∧
     wC7b.ktxInstDlOk = true ∧ wC7b.ktxDllFound = true) ∧
    (checkVulkanSDK none true true =
      ([Act.promptYN "vulkan-install",
        Act.downloadA VULKAN_SDK_INSTALLER_URL VULKAN_SDK_EXE_PATH,
        Act.startFileA VULKAN_SDK_EXE_PATH, Act.waitEnter], VkRes.exitedInstall) ∧
     vkOut VkRes.exitedInstall = some (Outcome.exited 0) ∧
     (checkKTXSDK wC7b).2 =
       (getKTXSDKPath wC7b.ktxEnv wC7b.ktxLocalAbs wC7b.ktxPost).isSome ∧
     Act.startFileA ktxInstPath ∈ (checkKTXSDK wC7b).1 ∧
     Act.waitEnter ∈ (checkKTXSDK wC7b).1 ∧
     (runSetup wC7b).2 = (premakeStep wC7b).2) :=
  ⟨⟨rfl, rfl, rfl, rfl, rfl, rfl, rfl, rfl⟩,
   C7_install_flow wC7b rfl rfl rfl rfl rfl rfl rfl rfl⟩

/-! ## Claim C1: when the generator step decides the exit code -/

/-- Claim C1 counterexample: on a non-Windows host the generator's exit
status is ignored.  Here the generator runs (`premake5 gmake2` appears
in the trace) and returns exit code 1, yet the run completes normally
and the process exits 0 — refuting "whenever the generator process
returns a non-zero exit code the run halts with a non-zero exit". -/
theorem C1_counterexample :
    wC1.premakeExitNix = 1 ∧
    runSetup wC1 =
      ([Act.gitBulkInit,
        Act.repoChecked "vendor/GLFW", Act.repoChecked "vendor/ImGuiLib",
        Act.repoChecked "vendor/glm", Act.repoChecked "vendor/ImGuizmo",
        Act.repoChecked "vendor/imnodes", Act.repoChecked "vendor/yaml-cpp",
        Act.repoChecked "vendor/Box2D", Act.repoChecked "vendor/assimp",
        Act.repoChecked "vendor/Bullet3",
        Act.writeFileA "ktx_config.lua"
          "-- Auto-generated by KTX.py\nKTX_SDK_PATH = \"C:/dev/Lunex/vendor/ktx\"\n",
        Act.premakeRun "gmake2"],
       Outcome.finished) ∧
    exitCode (runSetup wC1).2 = 0 :=
  ⟨rfl, rfl, rfl⟩

/-- Claim C1 amended: once the run reaches the generator step, on a
Windows host it exits 1 exactly when the generator executable is missing
or the generator returns non-zero, and exits 0 when the generator
succeeds; on a non-Windows host the generator's exit status is ignored
(the run exits 0 even if the generator failed), while a missing
executable there aborts with an uncaught exception.  Earlier steps can
also end the process: a failed pip install raises, and accepting the
Vulkan install prompt exits with code 0. -/
theorem C1_generator_exit (w : World)
    (h1 : (validatePackagesM w).2 = none)
    (h2 : vkOut (vkCall w).2 = none) :
    (w.isWindows = true →
        (((runSetup w).2 = Outcome.exited 1) ↔
          (w.probe premakeWinPath = false ∨ w.premakeExitW ≠ 0)) ∧
        (w.probe premakeWinPath = true → w.premakeExitW = 0 →
          (runSetup w).2 = Outcome.finished)) ∧
    (w.isWindows = false →
        (w.probe premakeNixPath = true → (runSetup w).2 = Outcome.finished) ∧
        (w.probe premakeNixPath = false → (runSetup w).2 = Outcome.raised)) := by
  have hout := runSetup_out_premake w h1 h2
  rw [hout]
  constructor
  · intro hwin
    refine ⟨?_, ?_⟩
    · by_cases hpw : w.probe premakeWinPath = true
      · by_cases hex : w.premakeExitW = 0
        · simp [premakeStep, hwin, hpw, hex]
        · simp [premakeStep, hwin, hpw, hex]
      · have hpw' : w.probe premakeWinPath = false := by simpa using hpw
        simp [premakeStep, hwin, hpw']
    · intro hpw hex
      simp [premakeStep, hwin, hpw, hex]
  · intro hwin
    refine ⟨?_, ?_⟩
    · intro hpn
      simp [premakeStep, hwin, hpn]
    · intro hpn
      simp [premakeStep, hwin, hpn]

/-- Witness for `C1_generator_exit` at the benign Windows world. -/
theorem C1_witness :
    ((validatePackagesM baseW).2 = none ∧ vkOut (vkCall baseW).2 = none) ∧
    ((baseW.isWindows = true →
        (((runSetup baseW).2 = Outcome.exited 1) ↔
          (baseW.probe premakeWinPath = false ∨ baseW.premakeExitW ≠ 0)) ∧
        (baseW.probe premakeWinPath = true → baseW.premakeExitW = 0 →
          (runSetup baseW).2 = Outcome.finished)) ∧
     (baseW.isWindows = false →
        (baseW.probe premakeNixPath = true → (runSetup baseW).2 = Outcome.finished) ∧
        (baseW.probe premakeNixPath = false → (runSetup baseW).2 = Outcome.raised))) :=
  ⟨⟨rfl, rfl⟩, C1_generator_exit baseW rfl rfl⟩

end LunexSetup
